import Mathlib

/-!
Verification of the query-safety gate and conversational round-trip protocol
of the Streamlit chatbot for the employee-training Databricks warehouse
(src/app.py), as a shallow embedding in Lean.

The embedding models:
  - the Query Validator regex check of execute_select_query
    (re.match of the pattern anchored select-then-whitespace, IGNORECASE);
  - the Query Executor execute_select_query, with the external warehouse
    (sql.connect and pd.read_sql) abstracted as a Warehouse value whose
    observable behaviour is a result plus a trace of events;
  - the top-level chat handler (the body of the if-prompt block,
    src/app.py lines 107-174), with the two model calls abstracted as
    functions supplied by an Env value, and an uncaught Python exception
    modelled as an aborted turn outcome.

Strings are modelled as Lean String; character classes follow the Python
re module for str patterns restricted to the characters the claims use:
isPySpace lists the whitespace characters matched by the backslash-s class,
and case-insensitive letter matching is modelled with Char.toLower (ASCII).
-/

namespace ChatbotApp

/-- Characters matched by the Python re whitespace class for str patterns:
the six ASCII whitespace characters plus the Unicode whitespace characters. -/
def isPySpace (c : Char) : Bool :=
  c = ' ' || c = '\t' || c = '\n' || c = '\r' || c = '\x0b' || c = '\x0c' ||
  c = '\x1c' || c = '\x1d' || c = '\x1e' || c = '\x1f' || c = '\x85' ||
  c = '\u00a0' || c = '\u1680' || c = '\u2000' || c = '\u2001' || c = '\u2002' ||
  c = '\u2003' || c = '\u2004' || c = '\u2005' || c = '\u2006' || c = '\u2007' ||
  c = '\u2008' || c = '\u2009' || c = '\u200a' || c = '\u2028' || c = '\u2029' ||
  c = '\u202f' || c = '\u205f' || c = '\u3000'

/-- After the leading whitespace has been consumed: true iff the list starts
with the six letters of SELECT, case-insensitively, followed by a whitespace
character. This is the tail of the regex pattern in src/app.py line 26. -/
def startsSelectWS : List Char → Bool
  | c1 :: c2 :: c3 :: c4 :: c5 :: c6 :: c7 :: _ =>
      (c1.toLower == 's') && (c2.toLower == 'e') && (c3.toLower == 'l') &&
      (c4.toLower == 'e') && (c5.toLower == 'c') && (c6.toLower == 't') &&
      isPySpace c7
  | _ => false

/-- The anchored match loop: the greedy whitespace star of the pattern.
Backtracking never helps here because a whitespace character can never match
the letter s, so consuming the maximal whitespace run is the full re
semantics of the pattern. -/
def matchSelectAux : List Char → Bool
  | [] => false
  | c :: cs => if isPySpace c then matchSelectAux cs else startsSelectWS (c :: cs)

/-- Model of re.match of pattern caret-whitespace-star-SELECT-whitespace with
re.IGNORECASE on the query string (src/app.py line 26), as a Bool: true iff
the match object is truthy. -/
def pyMatchSelect (q : String) : Bool :=
  matchSelectAux q.toList

/-- The Query Validator predicate in the words of the spec: accept iff, after
trimming leading whitespace, the string begins with the case-insensitive
keyword SELECT followed by a whitespace character. Stated independently of
pyMatchSelect, to be compared with it. -/
def validatorSpec (q : String) : Bool :=
  let t := q.toList.dropWhile isPySpace
  ((t.take 6).map Char.toLower == "select".toList) &&
    (match t.drop 6 with
     | c :: _ => isPySpace c
     | [] => false)

/-- A row of a materialized query result; the tabular structure is modelled
by its list of rows (a pandas DataFrame is empty iff it has no rows here). -/
abbrev Row := List String

/-- Observable events of one turn: warehouse connection lifecycle, query
submission, the Streamlit error surface st.error, the st.code rendering of
the generated SQL, the call into execute_select_query, and st.dataframe. -/
inductive Event
  | connOpen
  | connClose
  | querySubmitted (q : String)
  | uiError (msg : String)
  | renderedSQL (q : String)
  | executorCalled (q : String)
  | dataframeShown
  deriving DecidableEq, Repr

/-- The external warehouse collaborator: whether sql.connect succeeds (and
the error text it raises otherwise), and what pd.read_sql does for a given
query string: a materialized list of rows, or a raised error. -/
structure Warehouse where
  connectOk : Bool
  connectErr : String
  run : String → Except String (List Row)

/-- Result of execute_select_query as seen by its caller: the returned
DataFrame (possibly empty), the failure marker None, or an exception
propagating out of the function. -/
inductive ExecResult
  | table (rows : List Row)
  | failureMarker
  | raised (msg : String)
  deriving DecidableEq, Repr

/-- Shallow embedding of execute_select_query (src/app.py lines 21-42):
validate first and raise ValueError before any connection is opened;
then open the connection (sql.connect may itself raise, outside the try);
then run the query inside try-except-finally, returning the DataFrame,
or on exception calling st.error and returning None, closing the
connection on every path out of the try. The second component is the
event trace of the call. -/
def execute_select_query (wh : Warehouse) (q : String) : ExecResult × List Event :=
  if pyMatchSelect q = false then
    (ExecResult.raised "Only SELECT queries are allowed.", [])
  else if wh.connectOk = false then
    (ExecResult.raised wh.connectErr, [])
  else
    match wh.run q with
    | Except.ok rows =>
        (ExecResult.table rows,
          [Event.connOpen, Event.querySubmitted q, Event.connClose])
    | Except.error msg =>
        (ExecResult.failureMarker,
          [Event.connOpen, Event.querySubmitted q,
           Event.uiError ("An error occurred: " ++ msg), Event.connClose])

/-- A tool call carried by a model response: the opaque call identifier and
the raw JSON text of the arguments. -/
structure ToolCall where
  id : String
  functionArguments : String
  deriving DecidableEq, Repr

/-- Message roles of the conversation. -/
inductive Role
  | system
  | user
  | assistant
  | tool
  deriving DecidableEq, Repr

/-- A conversation message. tool_call_id is set on tool-result messages;
tool_calls is nonempty only on a model message that requested tool calls
(the default mirrors plain dict messages built by the app). -/
structure Msg where
  role : Role
  content : String
  tool_call_id : Option String := none
  tool_calls : List ToolCall := []
  deriving DecidableEq, Repr

/-- The message of the first model response, response.choices[0].message:
its text content and its tool_calls attribute, with the Python value None
modelled as the empty list (both are falsy in the if on line 123). -/
structure ModelMsg where
  content : String
  tool_calls : List ToolCall
  deriving DecidableEq, Repr

def userMsg (p : String) : Msg := { role := Role.user, content := p }

def assistantMsg (c : String) : Msg := { role := Role.assistant, content := c }

/-- The tool-result message built in each branch of lines 138-160. -/
def toolMsg (callId c : String) : Msg :=
  { role := Role.tool, content := c, tool_call_id := some callId }

/-- The model message as it is placed into the follow-up message list
(line 165): an assistant message carrying the tool calls. -/
def modelToMsg (m : ModelMsg) : Msg :=
  { role := Role.assistant, content := m.content, tool_calls := m.tool_calls }

/-- The external collaborators of one turn: json.loads specialised to the
objects the tool schema declares (none models a raised JSONDecodeError;
a parsed object is an association list of string fields), the warehouse,
and the follow-up model call of line 163 mapping the sent message list to
the content of its reply. -/
structure Env where
  jsonLoads : String → Option (List (String × String))
  wh : Warehouse
  followup : List Msg → String

/-- Textual rendering of df.head(20).to_markdown(index=False); the exact
format belongs to the external pandas library, modelled here as a simple
concrete table rendering. -/
def toMarkdown (rows : List Row) : String :=
  String.intercalate "\n" (rows.map (fun r => String.intercalate " | " r))

/-- The tool-result message built from the outcome of execute_select_query
by the branches of src/app.py lines 135-160: a populated DataFrame is
rendered as the markdown of its first 20 rows, an empty DataFrame and the
failure marker None get their fixed strings, and a caught exception gets
the Error-prefixed exception text. -/
def toolResultMsg (callId : String) : ExecResult → Msg
  | ExecResult.table rows =>
      if rows.isEmpty then
        toolMsg callId
          "The query executed successfully, but there are no results to display."
      else
        toolMsg callId (toMarkdown (rows.take 20))
  | ExecResult.failureMarker =>
      toolMsg callId "There was an error executing the query."
  | ExecResult.raised msg =>
      toolMsg callId ("Error: " ++ msg)

/-- st.dataframe is shown only in the populated-DataFrame branch
(src/app.py line 136). -/
def shownEvents : ExecResult → List Event
  | ExecResult.table rows => if rows.isEmpty then [] else [Event.dataframeShown]
  | _ => []

/-- Outcome of processing one submitted prompt: the session afterwards,
whether an uncaught Python exception aborted the turn, the event trace,
and the exact message list sent to the follow-up model call when one
was made. -/
structure TurnOutcome where
  finalSession : List Msg
  aborted : Bool
  events : List Event
  followupMessages : Option (List Msg)

/-- Shallow embedding of the chat handler, the body of the if-prompt block
(src/app.py lines 107-174). The user message is appended first (line 108).
If the response carries tool calls, the arguments of the first tool call
are parsed by json.loads and indexed at sql_query (lines 125-126, outside
any try: a parse failure or missing key is an uncaught exception that
aborts the turn). Otherwise the SQL is rendered (st.code, line 130),
execute_select_query is called inside try-except (lines 133-160), the
tool-result message is built from its outcome, the follow-up model call
receives the session plus the model message and the tool-result message
as an ephemeral list (line 165), and only the final assistant reply is
appended to the session (line 172). -/
def processTurn (env : Env) (session : List Msg) (prompt : String)
    (response : ModelMsg) : TurnOutcome :=
  let session1 := session ++ [userMsg prompt]
  match response.tool_calls with
  | [] =>
      { finalSession := session1 ++ [assistantMsg response.content]
        aborted := false
        events := []
        followupMessages := none }
  | tc :: _ =>
      match env.jsonLoads tc.functionArguments with
      | none =>
          { finalSession := session1, aborted := true, events := [],
            followupMessages := none }
      | some args =>
          match args.lookup "sql_query" with
          | none =>
              { finalSession := session1, aborted := true, events := [],
                followupMessages := none }
          | some sql_query =>
              let execOut := execute_select_query env.wh sql_query
              let frm : Msg := toolResultMsg tc.id execOut.1
              let ephemeral := session1 ++ [modelToMsg response, frm]
              let reply := env.followup ephemeral
              { finalSession := session1 ++ [assistantMsg reply]
                aborted := false
                events := [Event.renderedSQL sql_query, Event.executorCalled sql_query]
                  ++ execOut.2 ++ shownEvents execOut.1
                followupMessages := some ephemeral }

/-- Number of assistant-role messages in a session. -/
def assistantCount (l : List Msg) : Nat :=
  (l.filter (fun m => m.role == Role.assistant)).length

/-- A warehouse where sql.connect succeeds and every query returns no rows. -/
def whEmptyOk : Warehouse :=
  { connectOk := true, connectErr := "", run := fun _ => Except.ok [] }

/-- A warehouse where sql.connect succeeds and every query returns one row. -/
def whOneRow : Warehouse :=
  { connectOk := true, connectErr := "", run := fun _ => Except.ok [["4"]] }

/-- A warehouse whose sql.connect raises. -/
def whConnFail : Warehouse :=
  { connectOk := false, connectErr := "connection refused",
    run := fun _ => Except.ok [] }

/-- A warehouse where pd.read_sql raises on every query. -/
def whRunFail : Warehouse :=
  { connectOk := true, connectErr := "",
    run := fun _ => Except.error "TABLE_OR_VIEW_NOT_FOUND" }

/-- A model response whose first tool call has id call_1. -/
def respTool : ModelMsg :=
  { content := "", tool_calls := [{ id := "call_1", functionArguments := "args1" }] }

/-- A model response with no tool calls: the direct-answer branch. -/
def respDirect : ModelMsg :=
  { content := "Hello!", tool_calls := [] }

/-- json.loads behaviour mapping every payload to an object whose sql_query
field is q. -/
def loadsSql (q : String) : String → Option (List (String × String)) :=
  fun _ => some [("sql_query", q)]

/-- json.loads behaviour that raises on every payload. -/
def loadsRaise : String → Option (List (String × String)) := fun _ => none

/-- json.loads behaviour returning an object without the sql_query field. -/
def loadsNoField : String → Option (List (String × String)) :=
  fun _ => some [("foo", "bar")]

/-- Build an Env from a json.loads behaviour, a warehouse and a fixed reply
of the follow-up model call. -/
def envOf (l : String → Option (List (String × String))) (w : Warehouse)
    (r : String) : Env :=
  { jsonLoads := l, wh := w, followup := fun _ => r }

/-- Concrete environment of the populated-result scenario. -/
def envRows : Env := envOf (loadsSql "SELECT name FROM employees") whOneRow "There are 4."

/-- Concrete environment of the empty-result scenario. -/
def envEmpty : Env := envOf (loadsSql "SELECT id FROM empty_table") whEmptyOk "Nothing found."

example : pyMatchSelect "select * from employees" = true := by decide
example : pyMatchSelect "  SELECT id FROM courses" = true := by decide
example : pyMatchSelect "DROP TABLE employees" = false := by decide
example : pyMatchSelect "SELECTish" = false := by decide
example : pyMatchSelect "DELETE FROM employees" = false := by decide
example : validatorSpec "  SELECT id FROM courses" = true := by decide

/-- The direct-answer branch of the handler: no tool calls, the model reply
becomes the assistant turn. -/
theorem processTurn_direct (env : Env) (session : List Msg) (prompt : String)
    (response : ModelMsg) (htc : response.tool_calls = []) :
    processTurn env session prompt response =
      { finalSession := session ++ [userMsg prompt, assistantMsg response.content]
        aborted := false
        events := []
        followupMessages := none } := by
  simp [processTurn, htc]

/-- The branch where json.loads raises: the turn aborts after the user turn. -/
theorem processTurn_parseErr (env : Env) (session : List Msg) (prompt : String)
    (response : ModelMsg) (tc : ToolCall) (rest : List ToolCall)
    (htc : response.tool_calls = tc :: rest)
    (hj : env.jsonLoads tc.functionArguments = none) :
    processTurn env session prompt response =
      { finalSession := session ++ [userMsg prompt]
        aborted := true
        events := []
        followupMessages := none } := by
  simp [processTurn, htc, hj]

/-- The branch where the parsed object lacks the sql_query field: the turn
aborts after the user turn. -/
theorem processTurn_noField (env : Env) (session : List Msg) (prompt : String)
    (response : ModelMsg) (tc : ToolCall) (rest : List ToolCall)
    (args : List (String × String))
    (htc : response.tool_calls = tc :: rest)
    (hj : env.jsonLoads tc.functionArguments = some args)
    (hl : args.lookup "sql_query" = none) :
    processTurn env session prompt response =
      { finalSession := session ++ [userMsg prompt]
        aborted := true
        events := []
        followupMessages := none } := by
  simp [processTurn, htc, hj, hl]

/-- The tool branch of the handler with a well-formed payload: the SQL is
rendered and executed, the follow-up call receives the ephemeral list, and
its reply becomes the assistant turn. -/
theorem processTurn_toolBranch (env : Env) (session : List Msg) (prompt : String)
    (response : ModelMsg) (tc : ToolCall) (rest : List ToolCall)
    (args : List (String × String)) (q : String)
    (htc : response.tool_calls = tc :: rest)
    (hj : env.jsonLoads tc.functionArguments = some args)
    (hl : args.lookup "sql_query" = some q) :
    processTurn env session prompt response =
      { finalSession := session ++ [userMsg prompt,
          assistantMsg (env.followup (session ++ [userMsg prompt, modelToMsg response,
            toolResultMsg tc.id (execute_select_query env.wh q).1]))]
        aborted := false
        events := [Event.renderedSQL q, Event.executorCalled q]
          ++ (execute_select_query env.wh q).2
          ++ shownEvents (execute_select_query env.wh q).1
        followupMessages := some (session ++ [userMsg prompt, modelToMsg response,
          toolResultMsg tc.id (execute_select_query env.wh q).1]) } := by
  simp [processTurn, htc, hj, hl]

/-- The anchored match loop equals the check after the maximal leading
whitespace run has been dropped. -/
theorem matchSelectAux_eq_dropWhile (cs : List Char) :
    matchSelectAux cs = startsSelectWS (cs.dropWhile isPySpace) := by
  induction cs with
  | nil => rfl
  | cons c cs ih =>
      cases h : isPySpace c with
      | true => simp [matchSelectAux, h, List.dropWhile_cons, ih]
      | false => simp [matchSelectAux, h, List.dropWhile_cons]

/-- The take-and-drop formulation of the spec equals the structural check. -/
theorem takeDrop_eq_startsSelectWS (cs : List Char) :
    (((cs.take 6).map Char.toLower == "select".toList) &&
      (match cs.drop 6 with
       | c :: _ => isPySpace c
       | [] => false)) = startsSelectWS cs := by
  rcases cs with _ | ⟨c1, _ | ⟨c2, _ | ⟨c3, _ | ⟨c4, _ | ⟨c5, _ | ⟨c6, _ | ⟨c7, rest⟩⟩⟩⟩⟩⟩⟩
  all_goals
    rw [Bool.eq_iff_iff]
    simp [startsSelectWS, and_assoc]

/-- C1: execution is attempted only on candidates accepted by the validator:
when the validator rejects, execute_select_query raises ValueError with an
empty event trace, so no connection is opened and no query is submitted; and
any returned table implies the candidate was validated. -/
theorem exec_gate_validates_first (wh : Warehouse) (q : String) :
    (pyMatchSelect q = false →
      execute_select_query wh q =
        (ExecResult.raised "Only SELECT queries are allowed.", [])) ∧
    (∀ rows, (execute_select_query wh q).1 = ExecResult.table rows →
      pyMatchSelect q = true) := by
  constructor
  · intro h
    simp [execute_select_query, h]
  · intro rows hrow
    cases h : pyMatchSelect q with
    | true => rfl
    | false =>
        rw [execute_select_query] at hrow
        simp [h] at hrow

/-- Witness for exec_gate_validates_first: the DML proposal DELETE FROM
employees is rejected with no connection opened, and a table returned for a
SELECT implies the candidate was validated. -/
theorem exec_gate_validates_first_witness :
    execute_select_query whEmptyOk "DELETE FROM employees" =
      (ExecResult.raised "Only SELECT queries are allowed.", []) ∧
    pyMatchSelect "SELECT id FROM employees" = true :=
  ⟨(exec_gate_validates_first whEmptyOk "DELETE FROM employees").1 (by decide),
   (exec_gate_validates_first whEmptyOk "SELECT id FROM employees").2 [] (by decide)⟩

/-- C2: the Query Validator accepts a string iff, after trimming leading
whitespace, it begins with the case-insensitive keyword SELECT followed by a
whitespace character; it accepts the two sample SELECT strings and rejects
the DROP and UPDATE statements and SELECTish. -/
theorem validator_accepts_iff_spec :
    (∀ q : String, pyMatchSelect q = validatorSpec q) ∧
    pyMatchSelect "select * from employees" = true ∧
    pyMatchSelect "  SELECT id FROM courses" = true ∧
    pyMatchSelect "DROP TABLE employees" = false ∧
    pyMatchSelect "UPDATE employees SET department = d" = false ∧
    pyMatchSelect "SELECTish" = false := by
  refine ⟨fun q => ?_, by decide, by decide, by decide, by decide, by decide⟩
  simp only [pyMatchSelect, validatorSpec]
  rw [matchSelectAux_eq_dropWhile]
  exact (takeDrop_eq_startsSelectWS _).symm

/-- C3 counterexample: in the malformed-model-output branch (json.loads
raises on the payload of the first tool call) the turn aborts and no
assistant turn is appended, refuting the claim that every one of the six
branches appends exactly one assistant turn. -/
theorem turn_malformed_appends_no_assistant :
    (processTurn (envOf loadsRaise whEmptyOk "ok") [] "hi" respTool).aborted = true ∧
    assistantCount
      (processTurn (envOf loadsRaise whEmptyOk "ok") [] "hi" respTool).finalSession = 0 :=
  ⟨rfl, rfl⟩

/-- C3 amended: every non-aborted turn (direct answer, validated query
success, empty, failure, rejected query) appends exactly one assistant turn
after the user turn; the malformed-model-output branch instead aborts with
an uncaught exception, appending the user turn but no assistant turn, and a
turn aborts exactly when the first tool call carries a payload that fails to
parse or lacks the sql_query field. -/
theorem turn_appends_one_assistant (env : Env) (session : List Msg)
    (prompt : String) (response : ModelMsg) :
    ((processTurn env session prompt response).aborted = false →
      ∃ reply, (processTurn env session prompt response).finalSession =
        session ++ [userMsg prompt, assistantMsg reply]) ∧
    ((processTurn env session prompt response).aborted = true →
      (processTurn env session prompt response).finalSession =
        session ++ [userMsg prompt]) ∧
    ((processTurn env session prompt response).aborted = true ↔
      ∃ tc rest, response.tool_calls = tc :: rest ∧
        (env.jsonLoads tc.functionArguments = none ∨
          ∃ args, env.jsonLoads tc.functionArguments = some args ∧
            args.lookup "sql_query" = none)) := by
  rcases htc : response.tool_calls with _ | ⟨tc, rest⟩
  · rw [processTurn_direct env session prompt response htc]
    refine ⟨fun _ => ⟨response.content, rfl⟩, fun h => by simp at h, ?_⟩
    simp [htc]
  · rcases hj : env.jsonLoads tc.functionArguments with _ | args
    · rw [processTurn_parseErr env session prompt response tc rest htc hj]
      exact ⟨fun h => by simp at h, fun _ => rfl,
        iff_of_true rfl ⟨tc, rest, rfl, Or.inl hj⟩⟩
    · rcases hl : args.lookup "sql_query" with _ | q
      · rw [processTurn_noField env session prompt response tc rest args htc hj hl]
        exact ⟨fun h => by simp at h, fun _ => rfl,
          iff_of_true rfl ⟨tc, rest, rfl, Or.inr ⟨args, hj, hl⟩⟩⟩
      · rw [processTurn_toolBranch env session prompt response tc rest args q htc hj hl]
        refine ⟨fun _ => ⟨_, rfl⟩, fun h => by simp at h, ?_⟩
        refine iff_of_false (by simp) ?_
        rintro ⟨tc2, rest2, heq, hbad⟩
        injection heq with h1 h2
        subst h1
        rcases hbad with hbad | ⟨args2, hjs, hls⟩
        · rw [hj] at hbad; exact Option.noConfusion hbad
        · rw [hj] at hjs
          injection hjs with h3
          subst h3
          rw [hl] at hls
          exact Option.noConfusion hls

/-- Witness for turn_appends_one_assistant: a direct-answer turn appends one
assistant turn; a malformed-payload turn appends only the user turn. -/
theorem turn_appends_one_assistant_witness :
    (∃ reply, (processTurn (envOf (loadsSql "SELECT 1 FROM t") whEmptyOk "ok")
        [] "hi" respTool).finalSession =
      [] ++ [userMsg "hi", assistantMsg reply]) ∧
    (processTurn (envOf loadsRaise whEmptyOk "ok") [] "hey" respTool).finalSession =
      [] ++ [userMsg "hey"] :=
  ⟨(turn_appends_one_assistant (envOf (loadsSql "SELECT 1 FROM t") whEmptyOk "ok")
      [] "hi" respTool).1 rfl,
   (turn_appends_one_assistant (envOf loadsRaise whEmptyOk "ok")
      [] "hey" respTool).2.1 rfl⟩

/-- C6 counterexample: with a parsed payload that lacks the sql_query field,
the turn aborts and the session ends with no assistant message at all, so no
generic error string is appended as the assistant reply. -/
theorem missing_field_no_error_reply :
    (processTurn (envOf loadsNoField whEmptyOk "ok") [] "hi" respTool).aborted = true ∧
    ((processTurn (envOf loadsNoField whEmptyOk "ok") [] "hi" respTool).finalSession.filter
      (fun m => m.role == Role.assistant)) = [] ∧
    (processTurn (envOf loadsNoField whEmptyOk "ok") [] "hi" respTool).finalSession =
      [userMsg "hi"] :=
  ⟨rfl, rfl, rfl⟩

/-- C6 amended: if the structured tool-argument payload fails to parse or
parses to an object without the sql_query field, the exception propagates
uncaught: the turn aborts after appending only the user turn, with no
assistant reply, no follow-up model call, no SQL rendering and no execution,
rather than a generic error string being appended as the assistant reply. -/
theorem malformed_args_abort_turn (env : Env) (session : List Msg)
    (prompt : String) (response : ModelMsg) (tc : ToolCall) (rest : List ToolCall)
    (htc : response.tool_calls = tc :: rest)
    (hbad : env.jsonLoads tc.functionArguments = none ∨
      ∃ args, env.jsonLoads tc.functionArguments = some args ∧
        args.lookup "sql_query" = none) :
    (processTurn env session prompt response).aborted = true ∧
    (processTurn env session prompt response).finalSession =
      session ++ [userMsg prompt] ∧
    (processTurn env session prompt response).followupMessages = none ∧
    (processTurn env session prompt response).events = [] := by
  rcases hbad with hj | ⟨args, hj, hl⟩
  · rw [processTurn_parseErr env session prompt response tc rest htc hj]
    exact ⟨rfl, rfl, rfl, rfl⟩
  · rw [processTurn_noField env session prompt response tc rest args htc hj hl]
    exact ⟨rfl, rfl, rfl, rfl⟩

/-- Witness for malformed_args_abort_turn at a concrete raising json.loads. -/
theorem malformed_args_abort_turn_witness :
    (processTurn (envOf loadsRaise whOneRow "ok") [] "list courses" respTool).aborted = true ∧
    (processTurn (envOf loadsRaise whOneRow "ok") [] "list courses" respTool).finalSession =
      [] ++ [userMsg "list courses"] ∧
    (processTurn (envOf loadsRaise whOneRow "ok") [] "list courses" respTool).followupMessages = none ∧
    (processTurn (envOf loadsRaise whOneRow "ok") [] "list courses" respTool).events = [] :=
  malformed_args_abort_turn (envOf loadsRaise whOneRow "ok") [] "list courses" respTool
    { id := "call_1", functionArguments := "args1" } [] rfl (Or.inl rfl)

/-- The tool-result message always has the tool role, whatever the executor
outcome was. -/
theorem toolResultMsg_role (callId : String) (r : ExecResult) :
    (toolResultMsg callId r).role = Role.tool := by
  cases r with
  | table rows =>
      by_cases h : rows.isEmpty <;> simp [toolResultMsg, toolMsg, h]
  | failureMarker => rfl
  | raised msg => rfl

/-- C4 counterexample: in a successful tool-call turn, the model message and
the tool-result message appear in the ephemeral follow-up list but neither
is persisted: the final session holds only the user turn and the assistant
reply. -/
theorem tool_turns_not_persisted :
    (processTurn envRows [] "q" respTool).followupMessages =
      some [userMsg "q", modelToMsg respTool, toolMsg "call_1" "4"] ∧
    (processTurn envRows [] "q" respTool).finalSession =
      [userMsg "q", assistantMsg "There are 4."] ∧
    modelToMsg respTool ∉ [userMsg "q", assistantMsg "There are 4."] ∧
    toolMsg "call_1" "4" ∉ [userMsg "q", assistantMsg "There are 4."] :=
  ⟨rfl, rfl, by decide, by decide⟩

/-- C4 amended: after a handled tool invocation, the model tool-invocation
turn and the structured tool-result turn are passed only in the ephemeral
message list of the follow-up model call; the Session persists only the
final assistant reply, and in particular gains no tool-role message. -/
theorem followup_turns_ephemeral (env : Env) (session : List Msg)
    (prompt : String) (response : ModelMsg) (tc : ToolCall) (rest : List ToolCall)
    (args : List (String × String)) (q : String)
    (htc : response.tool_calls = tc :: rest)
    (hj : env.jsonLoads tc.functionArguments = some args)
    (hl : args.lookup "sql_query" = some q) :
    (processTurn env session prompt response).followupMessages =
      some (session ++ [userMsg prompt, modelToMsg response,
        toolResultMsg tc.id (execute_select_query env.wh q).1]) ∧
    (toolResultMsg tc.id (execute_select_query env.wh q).1).role = Role.tool ∧
    (processTurn env session prompt response).finalSession =
      session ++ [userMsg prompt, assistantMsg (env.followup
        (session ++ [userMsg prompt, modelToMsg response,
          toolResultMsg tc.id (execute_select_query env.wh q).1]))] ∧
    ((processTurn env session prompt response).finalSession.filter
        (fun m => m.role == Role.tool)) =
      session.filter (fun m => m.role == Role.tool) := by
  rw [processTurn_toolBranch env session prompt response tc rest args q htc hj hl]
  refine ⟨rfl, toolResultMsg_role tc.id _, rfl, ?_⟩
  simp [List.filter_append, userMsg, assistantMsg]

/-- Witness for followup_turns_ephemeral at the concrete populated-result
environment. -/
theorem followup_turns_ephemeral_witness :
    (processTurn envRows [] "q" respTool).followupMessages =
      some ([] ++ [userMsg "q", modelToMsg respTool,
        toolResultMsg "call_1" (execute_select_query envRows.wh
          "SELECT name FROM employees").1]) ∧
    ((processTurn envRows [] "q" respTool).finalSession.filter
        (fun m => m.role == Role.tool)) =
      List.filter (fun m => m.role == Role.tool) [] :=
  ⟨(followup_turns_ephemeral envRows [] "q" respTool
      { id := "call_1", functionArguments := "args1" } [] [("sql_query",
        "SELECT name FROM employees")] "SELECT name FROM employees" rfl rfl rfl).1,
   (followup_turns_ephemeral envRows [] "q" respTool
      { id := "call_1", functionArguments := "args1" } [] [("sql_query",
        "SELECT name FROM employees")] "SELECT name FROM employees" rfl rfl rfl).2.2.2⟩

/-- C5 counterexample: for a validated query against an empty table, the
fixed no-results string sits in the tool-result turn of the follow-up call,
while the final assistant message is whatever the follow-up model returned,
here a different string, refuting the claim that the user-facing reply is
the fixed fallback string produced without a model call. -/
theorem fallback_not_user_facing :
    pyMatchSelect "SELECT id FROM empty_table" = true ∧
    (execute_select_query whEmptyOk "SELECT id FROM empty_table").1 =
      ExecResult.table [] ∧
    (processTurn envEmpty [] "list" respTool).followupMessages =
      some [userMsg "list", modelToMsg respTool, toolMsg "call_1"
        "The query executed successfully, but there are no results to display."] ∧
    (processTurn envEmpty [] "list" respTool).finalSession =
      [userMsg "list", assistantMsg "Nothing found."] ∧
    "Nothing found." ≠
      "The query executed successfully, but there are no results to display." :=
  ⟨by decide, rfl, rfl, rfl, by decide⟩

/-- C5 amended: in the empty-result, execution-failure and rejected-query
branches the fixed fallback string (respectively the no-results message, the
execution-error message, and Error: followed by the exception text) becomes
the content of the tool-result turn handed to a follow-up model call, and
the user-facing assistant reply of the turn is the output of that follow-up
model call, not the fixed string itself. -/
theorem fallback_feeds_followup (env : Env) (session : List Msg)
    (prompt : String) (response : ModelMsg) (tc : ToolCall) (rest : List ToolCall)
    (args : List (String × String)) (q : String)
    (htc : response.tool_calls = tc :: rest)
    (hj : env.jsonLoads tc.functionArguments = some args)
    (hl : args.lookup "sql_query" = some q) :
    (processTurn env session prompt response).followupMessages =
      some (session ++ [userMsg prompt, modelToMsg response,
        toolResultMsg tc.id (execute_select_query env.wh q).1]) ∧
    ((execute_select_query env.wh q).1 = ExecResult.table [] →
      (toolResultMsg tc.id (execute_select_query env.wh q).1).content =
        "The query executed successfully, but there are no results to display.") ∧
    ((execute_select_query env.wh q).1 = ExecResult.failureMarker →
      (toolResultMsg tc.id (execute_select_query env.wh q).1).content =
        "There was an error executing the query.") ∧
    (∀ msg, (execute_select_query env.wh q).1 = ExecResult.raised msg →
      (toolResultMsg tc.id (execute_select_query env.wh q).1).content =
        "Error: " ++ msg) ∧
    (pyMatchSelect q = false →
      (toolResultMsg tc.id (execute_select_query env.wh q).1).content =
        "Error: Only SELECT queries are allowed.") ∧
    (processTurn env session prompt response).finalSession =
      session ++ [userMsg prompt, assistantMsg (env.followup
        (session ++ [userMsg prompt, modelToMsg response,
          toolResultMsg tc.id (execute_select_query env.wh q).1]))] := by
  rw [processTurn_toolBranch env session prompt response tc rest args q htc hj hl]
  refine ⟨rfl, ?_, ?_, ?_, ?_, rfl⟩
  · intro h; rw [h]; rfl
  · intro h; rw [h]; rfl
  · intro msg h; rw [h]; rfl
  · intro h
    have hq : execute_select_query env.wh q =
        (ExecResult.raised "Only SELECT queries are allowed.", []) := by
      simp [execute_select_query, h]
    rw [hq]
    rfl

/-- Witness for fallback_feeds_followup at the concrete empty-table
environment. -/
theorem fallback_feeds_followup_witness :
    (toolResultMsg "call_1"
      (execute_select_query envEmpty.wh "SELECT id FROM empty_table").1).content =
      "The query executed successfully, but there are no results to display." ∧
    (processTurn envEmpty [] "list" respTool).finalSession =
      [] ++ [userMsg "list", assistantMsg (envEmpty.followup
        ([] ++ [userMsg "list", modelToMsg respTool, toolResultMsg "call_1"
          (execute_select_query envEmpty.wh "SELECT id FROM empty_table").1]))] :=
  ⟨(fallback_feeds_followup envEmpty [] "list" respTool
      ⟨"call_1", "args1"⟩ [] [("sql_query", "SELECT id FROM empty_table")]
      "SELECT id FROM empty_table" rfl rfl rfl).2.1 rfl,
   (fallback_feeds_followup envEmpty [] "list" respTool
      ⟨"call_1", "args1"⟩ [] [("sql_query", "SELECT id FROM empty_table")]
      "SELECT id FROM empty_table" rfl rfl rfl).2.2.2.2.2⟩

/-- In every executor trace the number of connection openings equals the
number of connection closings. -/
theorem exec_trace_balanced (wh : Warehouse) (q : String) :
    (execute_select_query wh q).2.count Event.connOpen =
      (execute_select_query wh q).2.count Event.connClose := by
  rw [execute_select_query]
  split
  · rfl
  · split
    · rfl
    · rcases hr : wh.run q with rows | msg <;> simp [hr, List.count_cons]

/-- The dataframe-rendering events contain no connection events. -/
theorem shownEvents_sub (r : ExecResult) :
    shownEvents r = [] ∨ shownEvents r = [Event.dataframeShown] := by
  cases r with
  | table rows => by_cases h : rows.isEmpty <;> simp [shownEvents, h]
  | failureMarker => exact Or.inl rfl
  | raised msg => exact Or.inl rfl

/-- C7: the warehouse connection is scoped to one executor call: in the
trace of every call the connection is opened exactly as often as it is
closed, an opened connection means the trace ends with the close, and the
events of a whole processed turn are likewise balanced, so no connection is
held across turns or across the two model calls. -/
theorem connection_scoped (wh : Warehouse) (q : String) (env : Env)
    (session : List Msg) (prompt : String) (response : ModelMsg) :
    ((execute_select_query wh q).2.count Event.connOpen =
      (execute_select_query wh q).2.count Event.connClose) ∧
    (Event.connOpen ∈ (execute_select_query wh q).2 →
      (execute_select_query wh q).2.getLast? = some Event.connClose) ∧
    ((processTurn env session prompt response).events.count Event.connOpen =
      (processTurn env session prompt response).events.count Event.connClose) := by
  refine ⟨exec_trace_balanced wh q, ?_, ?_⟩
  · rw [execute_select_query]
    split
    · intro h; simp at h
    · split
      · intro h; simp at h
      · rcases hr : wh.run q with rows | msg <;> simp [hr]
  · rcases htc : response.tool_calls with _ | ⟨tc, rest⟩
    · rw [processTurn_direct env session prompt response htc]; rfl
    · rcases hj : env.jsonLoads tc.functionArguments with _ | args
      · rw [processTurn_parseErr env session prompt response tc rest htc hj]; rfl
      · rcases hl : args.lookup "sql_query" with _ | q2
        · rw [processTurn_noField env session prompt response tc rest args htc hj hl]; rfl
        · rw [processTurn_toolBranch env session prompt response tc rest args q2 htc hj hl]
          rcases shownEvents_sub ((execute_select_query env.wh q2).1) with h | h <;>
            simp [h, List.count_append, List.count_cons, exec_trace_balanced]

/-- Witness for connection_scoped: a concrete failing query still closes the
connection it opened, and its trace ends with the close event. -/
theorem connection_scoped_witness :
    ((execute_select_query whRunFail "SELECT id FROM employees").2.count
        Event.connOpen =
      (execute_select_query whRunFail "SELECT id FROM employees").2.count
        Event.connClose) ∧
    (execute_select_query whRunFail "SELECT id FROM employees").2.getLast? =
      some Event.connClose :=
  ⟨(connection_scoped whRunFail "SELECT id FROM employees"
      (envOf loadsRaise whRunFail "ok") [] "p" respDirect).1,
   (connection_scoped whRunFail "SELECT id FROM employees"
      (envOf loadsRaise whRunFail "ok") [] "p" respDirect).2.1 (by decide)⟩

/-- C8 counterexample: on a validated query against a warehouse whose
sql.connect raises, execute_select_query neither returns a table nor the
failure marker with a surfaced error: the exception propagates (empty
trace, no st.error event), refuting the claim that the executor always
returns one of the three reported outcomes. -/
theorem connect_failure_raises :
    pyMatchSelect "SELECT id FROM employees" = true ∧
    (execute_select_query whConnFail "SELECT id FROM employees").1 =
      ExecResult.raised "connection refused" ∧
    (execute_select_query whConnFail "SELECT id FROM employees").2 = [] :=
  ⟨by decide, rfl, rfl⟩

/-- C8 amended: for every validated input on which the connection opens
successfully, the executor returns exactly one of a populated table, an
explicitly-empty table, or the failure marker with the error message
surfaced on the UI error surface; when sql.connect itself fails the
exception is instead raised to the caller (and caught at the turn
boundary). -/
theorem executor_trichotomy (wh : Warehouse) (q : String)
    (hv : pyMatchSelect q = true) (hc : wh.connectOk = true) :
    (∃ rows, rows ≠ [] ∧ execute_select_query wh q =
      (ExecResult.table rows,
        [Event.connOpen, Event.querySubmitted q, Event.connClose])) ∨
    (execute_select_query wh q =
      (ExecResult.table [],
        [Event.connOpen, Event.querySubmitted q, Event.connClose])) ∨
    (∃ msg, wh.run q = Except.error msg ∧ execute_select_query wh q =
      (ExecResult.failureMarker,
        [Event.connOpen, Event.querySubmitted q,
         Event.uiError ("An error occurred: " ++ msg), Event.connClose])) := by
  rcases hr : wh.run q with msg | rows
  · right; right; exact ⟨msg, rfl, by simp [execute_select_query, hv, hc, hr]⟩
  · rcases rows with _ | ⟨r, rs⟩
    · right; left; simp [execute_select_query, hv, hc, hr]
    · left; exact ⟨r :: rs, by simp, by simp [execute_select_query, hv, hc, hr]⟩

/-- Witness for executor_trichotomy at a warehouse whose query raises: the
failure branch with the surfaced error message. -/
theorem executor_trichotomy_witness :
    (∃ rows, rows ≠ [] ∧ execute_select_query whRunFail "SELECT id FROM employees" =
      (ExecResult.table rows,
        [Event.connOpen, Event.querySubmitted "SELECT id FROM employees",
         Event.connClose])) ∨
    (execute_select_query whRunFail "SELECT id FROM employees" =
      (ExecResult.table [],
        [Event.connOpen, Event.querySubmitted "SELECT id FROM employees",
         Event.connClose])) ∨
    (∃ msg, whRunFail.run "SELECT id FROM employees" = Except.error msg ∧
      execute_select_query whRunFail "SELECT id FROM employees" =
      (ExecResult.failureMarker,
        [Event.connOpen, Event.querySubmitted "SELECT id FROM employees",
         Event.uiError ("An error occurred: " ++ msg), Event.connClose])) :=
  executor_trichotomy whRunFail "SELECT id FROM employees" (by decide) rfl

/-- Neither the SQL rendering event nor the executor-call event ever occurs
inside the trace of execute_select_query itself. -/
theorem exec_trace_no_ui_events (wh : Warehouse) (q s : String) :
    Event.renderedSQL s ∉ (execute_select_query wh q).2 ∧
    Event.executorCalled s ∉ (execute_select_query wh q).2 := by
  rw [execute_select_query]
  split
  · simp
  · split
    · simp
    · rcases hr : wh.run q with rows | msg <;> simp [hr]

/-- C9: in every processed turn, a SQL string is rendered in the collapsible
code block iff the identical string is the one submitted to the Query
Executor. -/
theorem rendered_sql_eq_submitted (env : Env) (session : List Msg)
    (prompt : String) (response : ModelMsg) (s : String) :
    (Event.renderedSQL s ∈ (processTurn env session prompt response).events ↔
     Event.executorCalled s ∈ (processTurn env session prompt response).events) := by
  rcases htc : response.tool_calls with _ | ⟨tc, rest⟩
  · rw [processTurn_direct env session prompt response htc]
    simp
  · rcases hj : env.jsonLoads tc.functionArguments with _ | args
    · rw [processTurn_parseErr env session prompt response tc rest htc hj]
      simp
    · rcases hl : args.lookup "sql_query" with _ | q2
      · rw [processTurn_noField env session prompt response tc rest args htc hj hl]
        simp
      · rw [processTurn_toolBranch env session prompt response tc rest args q2 htc hj hl]
        have h1 := (exec_trace_no_ui_events env.wh q2 s).1
        have h2 := (exec_trace_no_ui_events env.wh q2 s).2
        rcases shownEvents_sub ((execute_select_query env.wh q2).1) with h | h <;>
          simp [h, h1, h2]

/-- Witness for rendered_sql_eq_submitted at a concrete turn: the rendered
string is also the submitted one. -/
theorem rendered_sql_eq_submitted_witness :
    Event.executorCalled "SELECT name FROM employees" ∈
      (processTurn envRows [] "q" respTool).events :=
  (rendered_sql_eq_submitted envRows [] "q" respTool
    "SELECT name FROM employees").mp (by decide)

/-- The tool-result message carries the call identifier it was built for. -/
theorem toolResultMsg_id (callId : String) (r : ExecResult) :
    (toolResultMsg callId r).tool_call_id = some callId := by
  cases r with
  | table rows =>
      by_cases h : rows.isEmpty <;> simp [toolResultMsg, toolMsg, h]
  | failureMarker => rfl
  | raised msg => rfl

/-- C10: the observable behaviour of a turn (events and abortion) does not
depend on the tool calls after the first one, and every tool-result turn
created by the turn carries the call identifier of the first tool call, so
no additional tool call ever receives a tool-result turn. -/
theorem first_tool_call_only (env : Env) (session : List Msg)
    (prompt content : String) (tc : ToolCall) (rest rest2 : List ToolCall) :
    ((processTurn env session prompt
        { content := content, tool_calls := tc :: rest }).events =
      (processTurn env session prompt
        { content := content, tool_calls := tc :: rest2 }).events) ∧
    ((processTurn env session prompt
        { content := content, tool_calls := tc :: rest }).aborted =
      (processTurn env session prompt
        { content := content, tool_calls := tc :: rest2 }).aborted) ∧
    (∀ l m, (processTurn env session prompt
        { content := content, tool_calls := tc :: rest }).followupMessages = some l →
      m ∈ l → m ∉ session → m.role = Role.tool → m.tool_call_id = some tc.id) := by
  rcases hj : env.jsonLoads tc.functionArguments with _ | args
  · rw [processTurn_parseErr env session prompt _ tc rest rfl hj,
        processTurn_parseErr env session prompt _ tc rest2 rfl hj]
    exact ⟨rfl, rfl, fun l m hfm => Option.noConfusion hfm⟩
  · rcases hl : args.lookup "sql_query" with _ | q2
    · rw [processTurn_noField env session prompt _ tc rest args rfl hj hl,
          processTurn_noField env session prompt _ tc rest2 args rfl hj hl]
      exact ⟨rfl, rfl, fun l m hfm => Option.noConfusion hfm⟩
    · rw [processTurn_toolBranch env session prompt _ tc rest args q2 rfl hj hl,
          processTurn_toolBranch env session prompt _ tc rest2 args q2 rfl hj hl]
      refine ⟨rfl, rfl, ?_⟩
      intro l m hfm hm hns hrole
      injection hfm with hfm
      subst hfm
      rcases List.mem_append.mp hm with hms | hmd
      · exact absurd hms hns
      · simp only [List.mem_cons, List.not_mem_nil, or_false] at hmd
        rcases hmd with rfl | rfl | rfl
        · exact absurd hrole (by simp [userMsg])
        · exact absurd hrole (by simp [modelToMsg])
        · exact toolResultMsg_id tc.id _

/-- Witness for first_tool_call_only: with a second tool call present, the
events agree with the single-call turn and the created tool-result message
carries the first call identifier. -/
theorem first_tool_call_only_witness :
    ((processTurn envRows [] "q" { content := "", tool_calls :=
        [⟨"call_1", "args1"⟩, ⟨"call_2", "args2"⟩] }).events =
      (processTurn envRows [] "q" { content := "", tool_calls :=
        [⟨"call_1", "args1"⟩] }).events) ∧
    (toolMsg "call_1" "4").tool_call_id = some "call_1" :=
  ⟨(first_tool_call_only envRows [] "q" "" ⟨"call_1", "args1"⟩
      [⟨"call_2", "args2"⟩] []).1,
   (first_tool_call_only envRows [] "q" "" ⟨"call_1", "args1"⟩
      [⟨"call_2", "args2"⟩] []).2.2
     [userMsg "q", modelToMsg { content := "", tool_calls :=
        [⟨"call_1", "args1"⟩, ⟨"call_2", "args2"⟩] }, toolMsg "call_1" "4"]
     (toolMsg "call_1" "4") rfl (by decide) (by decide) rfl⟩

end ChatbotApp
